import Mathlib

/-!
Shallow embedding of the winit-ext crate: the ownership-transfer cell
(`src/takeable.rs`), the phase-typed state machine and host-callback adapter
(`src/lib.rs`), and the softbuffer example application
(`examples/softbuffer.rs`).  Process aborts (Rust `unreachable!` and second
`panic!` style macros) are modelled by the `PanicOr` outcome type; Rust
`Result` is modelled by `Except`; the mutable `ActiveEventLoop` handle is
modelled by explicit state passing of `EventLoopCtl`.
-/

namespace WinitExt

/-- Reason for a process abort.  `invalidTransition` models the
`invalid_transition` helper in `src/lib.rs` (an `unreachable!` with a
message); `unreachableEmpty` models the bare `unreachable!` raised by
`Takeable` when its `Option` is `None`. -/
inductive PanicKind : Type where
  | invalidTransition
  | unreachableEmpty
deriving DecidableEq

/-- Outcome of running code that may abort the process: either a normal
value or a propagating panic. -/
inductive PanicOr (α : Type) : Type where
  | panic (kind : PanicKind)
  | ok (a : α)
deriving DecidableEq

/-- The ownership-transfer cell from `src/takeable.rs`: a `struct
Takeable<T>(Option<T>)`.  `none` is the empty (poisoned) configuration,
observable only after a transformation aborted mid-transition. -/
structure Takeable (T : Type) : Type where
  val : Option T
deriving DecidableEq

/-- `Takeable::new` wraps the value in `Some`. -/
def Takeable.new {T : Type} (value : T) : Takeable T := ⟨some value⟩

/-- `Takeable::transition` with the closure's captured mutable environment
(in the crate: the `&ActiveEventLoop` handle captured by reference) made
explicit as a threaded state `σ`.  The held value is taken out of the
`Option` first (`self.0.take().unwrap_or_else(|| unreachable!())`); if the
cell is empty this aborts, if the closure aborts the cell stays empty, and
otherwise the closure's result is stored back with `Some`. -/
def Takeable.transitionWith {T σ : Type} (c : Takeable T) (s : σ)
    (f : T → σ → PanicOr (T × σ)) : PanicOr Unit × Takeable T × σ :=
  match c.val with
  | none => (.panic .unreachableEmpty, ⟨none⟩, s)
  | some v =>
    match f v s with
    | .panic k => (.panic k, ⟨none⟩, s)
    | .ok (v2, s2) => (.ok (), ⟨some v2⟩, s2)

/-- `Takeable::transition` for a closure with no captured mutable
environment: `self.0 = Some(f(self.0.take().unwrap_or_else(||
unreachable!())))`. -/
def Takeable.transition {T : Type} (c : Takeable T) (f : T → PanicOr T) :
    PanicOr Unit × Takeable T :=
  let r := c.transitionWith () (fun v _ =>
    match f v with
    | .panic k => .panic k
    | .ok v2 => .ok (v2, ()))
  (r.1, r.2.1)

/-- `Takeable::get`: `self.0.unwrap_or_else(|| unreachable!())`. -/
def Takeable.get {T : Type} (c : Takeable T) : PanicOr T :=
  match c.val with
  | none => .panic .unreachableEmpty
  | some v => .ok v

/-- The `winit::event_loop::ActiveEventLoop` handle, reduced to the one
capability the crate exercises on it directly: requesting loop exit. -/
structure EventLoopCtl : Type where
  exitRequested : Bool
deriving DecidableEq

/-- `ActiveEventLoop::exit`: records that loop shutdown was requested. -/
def EventLoopCtl.exit (_l : EventLoopCtl) : EventLoopCtl := ⟨true⟩

/-- `winit::event::StartCause`, with the payloads of the non-`Init`
variants elided (the adapter only discriminates `Init` from the rest). -/
inductive StartCause : Type where
  | init
  | poll
  | resumeTimeReached
  | waitCancelled
deriving DecidableEq

/-- `enum EventResumed<TUserEvent>` from `src/lib.rs`: the event union
deliverable while `Resumed`.  The winit payload types are abstract
parameters. -/
inductive EventResumed (WId WEv DId DEv UEv : Type) : Type where
  | NewEvents (cause : StartCause)
  | WindowEvent (window_id : WId) (event : WEv)
  | DeviceEvent (device_id : DId) (event : DEv)
  | UserEvent (e : UEv)
  | AboutToWait
  | MemoryWarning

/-- `enum EventSuspended<TUserEvent>` from `src/lib.rs`: the event union
deliverable while `Suspended`; it has no window-event variant. -/
inductive EventSuspended (DId DEv UEv : Type) : Type where
  | NewEvents (cause : StartCause)
  | DeviceEvent (device_id : DId) (event : DEv)
  | UserEvent (e : UEv)
  | AboutToWait
  | MemoryWarning

/-- The `Application` trait family (`Application`, `ApplicationUninitialized`,
`ApplicationResumed`, `ApplicationSuspended`) as a dictionary of the
state-machine operations.  Each Rust method receives `&ActiveEventLoop`,
modelled by threading `EventLoopCtl`, and returns `Result<_, Error>`.
The Rust method `ApplicationUninitialized::initialize` is named `init`
here. -/
structure Application (WId WEv DId DEv UEv U R S E Err : Type) : Type where
  init : U → EventLoopCtl → Except Err R × EventLoopCtl
  handleResumed : R → EventLoopCtl → EventResumed WId WEv DId DEv UEv →
    Except Err R × EventLoopCtl
  suspend : R → EventLoopCtl → Except Err S × EventLoopCtl
  exitResumed : R → EventLoopCtl → Except Err E × EventLoopCtl
  handleSuspended : S → EventLoopCtl → EventSuspended DId DEv UEv →
    Except Err S × EventLoopCtl
  resume : S → EventLoopCtl → Except Err R × EventLoopCtl
  exitSuspended : S → EventLoopCtl → Except Err E × EventLoopCtl

/-- `enum State<TApplicationState, TUserEvent>` from `src/lib.rs`. -/
inductive State (U R S E : Type) : Type where
  | Uninitialized (s : U)
  | Resumed (s : R)
  | Suspended (s : S)
  | Exited (s : E)
deriving DecidableEq

/-- `struct Adapter(Takeable<Result<State, Error>>)` from `src/lib.rs`. -/
structure Adapter (U R S E Err : Type) : Type where
  cell : Takeable (Except Err (State U R S E))

/-- `Adapter::new`: the cell starts `Ok(State::Uninitialized(state))`. -/
def Adapter.new {U R S E Err : Type} (state : U) : Adapter U R S E Err :=
  ⟨Takeable.new (.ok (.Uninitialized state))⟩

/-- `Adapter::exit`: `Ok(match self.0.get()? { Exited(state) => state, _ =>
invalid_transition() })`.  `Takeable::get` aborts on an empty cell; the `?`
returns a stored application error; any non-`Exited` phase aborts. -/
def Adapter.exit {U R S E Err : Type} (a : Adapter U R S E Err) :
    PanicOr (Except Err E) :=
  match a.cell.get with
  | .panic k => .panic k
  | .ok (.error e) => .ok (.error e)
  | .ok (.ok st) =>
    match st with
    | .Uninitialized _ => .panic .invalidTransition
    | .Resumed _ => .panic .invalidTransition
    | .Suspended _ => .panic .invalidTransition
    | .Exited s => .ok (.ok s)

/-- `Adapter::transition`: one cell transition whose closure is
`fallible_state.and_then(|state| f(state).inspect_err(|_|
event_loop.exit()))`.  A stored error short-circuits `and_then` without
calling `f`; a fresh error from `f` requests loop exit before being stored
back. -/
def Adapter.transition {U R S E Err : Type} (a : Adapter U R S E Err)
    (l : EventLoopCtl)
    (f : State U R S E → EventLoopCtl →
      PanicOr (Except Err (State U R S E) × EventLoopCtl)) :
    PanicOr Unit × Adapter U R S E Err × EventLoopCtl :=
  let r := a.cell.transitionWith l (fun fallible_state l =>
    match fallible_state with
    | .error e => .ok (.error e, l)
    | .ok st =>
      match f st l with
      | .panic k => .panic k
      | .ok (.error e, l2) => .ok (.error e, EventLoopCtl.exit l2)
      | .ok (.ok st2, l2) => .ok (.ok st2, l2))
  (r.1, ⟨r.2.1⟩, r.2.2)

/-- Embedding of the Rust `?` operator applied to a state-machine operation
inside a callback closure, followed by wrapping the success value in a
`State` constructor: `Ok(Ctor(op(...)?))`.  An `Err` from the operation is
propagated as the closure's error result. -/
def opResult {U R S E Err α : Type} (r : Except Err α × EventLoopCtl)
    (k : α → State U R S E) :
    PanicOr (Except Err (State U R S E) × EventLoopCtl) :=
  match r with
  | (.error e, l2) => .ok (.error e, l2)
  | (.ok x, l2) => .ok (.ok (k x), l2)

section Callbacks

variable {WId WEv DId DEv UEv U R S E Err : Type}

/-- `ApplicationHandler::new_events` for `Adapter` (`src/lib.rs`): on
`Uninitialized` only `StartCause::Init` is legal and runs `initialize`;
`Resumed`/`Suspended` forward a `NewEvents` event; `Exited` aborts. -/
def Adapter.new_events (app : Application WId WEv DId DEv UEv U R S E Err)
    (a : Adapter U R S E Err) (l : EventLoopCtl) (cause : StartCause) :
    PanicOr Unit × Adapter U R S E Err × EventLoopCtl :=
  a.transition l (fun state l =>
    match state with
    | .Uninitialized st =>
      match cause with
      | .init => opResult (app.init st l) .Resumed
      | _ => .panic .invalidTransition
    | .Resumed st => opResult (app.handleResumed st l (.NewEvents cause)) .Resumed
    | .Suspended st => opResult (app.handleSuspended st l (.NewEvents cause)) .Suspended
    | .Exited _ => .panic .invalidTransition)

/-- `ApplicationHandler::user_event` for `Adapter`. -/
def Adapter.user_event (app : Application WId WEv DId DEv UEv U R S E Err)
    (a : Adapter U R S E Err) (l : EventLoopCtl) (event : UEv) :
    PanicOr Unit × Adapter U R S E Err × EventLoopCtl :=
  a.transition l (fun state l =>
    match state with
    | .Uninitialized _ => .panic .invalidTransition
    | .Resumed st => opResult (app.handleResumed st l (.UserEvent event)) .Resumed
    | .Suspended st => opResult (app.handleSuspended st l (.UserEvent event)) .Suspended
    | .Exited _ => .panic .invalidTransition)

/-- `ApplicationHandler::device_event` for `Adapter`. -/
def Adapter.device_event (app : Application WId WEv DId DEv UEv U R S E Err)
    (a : Adapter U R S E Err) (l : EventLoopCtl) (device_id : DId) (event : DEv) :
    PanicOr Unit × Adapter U R S E Err × EventLoopCtl :=
  a.transition l (fun state l =>
    match state with
    | .Uninitialized _ => .panic .invalidTransition
    | .Resumed st =>
      opResult (app.handleResumed st l (.DeviceEvent device_id event)) .Resumed
    | .Suspended st =>
      opResult (app.handleSuspended st l (.DeviceEvent device_id event)) .Suspended
    | .Exited _ => .panic .invalidTransition)

/-- `ApplicationHandler::about_to_wait` for `Adapter`. -/
def Adapter.about_to_wait (app : Application WId WEv DId DEv UEv U R S E Err)
    (a : Adapter U R S E Err) (l : EventLoopCtl) :
    PanicOr Unit × Adapter U R S E Err × EventLoopCtl :=
  a.transition l (fun state l =>
    match state with
    | .Uninitialized _ => .panic .invalidTransition
    | .Resumed st => opResult (app.handleResumed st l .AboutToWait) .Resumed
    | .Suspended st => opResult (app.handleSuspended st l .AboutToWait) .Suspended
    | .Exited _ => .panic .invalidTransition)

/-- `ApplicationHandler::suspended` for `Adapter`: `Resumed` runs `suspend`;
an already-`Suspended` state is passed through unchanged
(`State::Suspended(state) => State::Suspended(state)`). -/
def Adapter.suspended (app : Application WId WEv DId DEv UEv U R S E Err)
    (a : Adapter U R S E Err) (l : EventLoopCtl) :
    PanicOr Unit × Adapter U R S E Err × EventLoopCtl :=
  a.transition l (fun state l =>
    match state with
    | .Uninitialized _ => .panic .invalidTransition
    | .Resumed st => opResult (app.suspend st l) .Suspended
    | .Suspended st => .ok (.ok (.Suspended st), l)
    | .Exited _ => .panic .invalidTransition)

/-- `ApplicationHandler::exiting` for `Adapter`: `Resumed` and `Suspended`
run their `exit` operation into the `Exited` phase. -/
def Adapter.exiting (app : Application WId WEv DId DEv UEv U R S E Err)
    (a : Adapter U R S E Err) (l : EventLoopCtl) :
    PanicOr Unit × Adapter U R S E Err × EventLoopCtl :=
  a.transition l (fun state l =>
    match state with
    | .Uninitialized _ => .panic .invalidTransition
    | .Resumed st => opResult (app.exitResumed st l) .Exited
    | .Suspended st => opResult (app.exitSuspended st l) .Exited
    | .Exited _ => .panic .invalidTransition)

/-- `ApplicationHandler::memory_warning` for `Adapter`. -/
def Adapter.memory_warning (app : Application WId WEv DId DEv UEv U R S E Err)
    (a : Adapter U R S E Err) (l : EventLoopCtl) :
    PanicOr Unit × Adapter U R S E Err × EventLoopCtl :=
  a.transition l (fun state l =>
    match state with
    | .Uninitialized _ => .panic .invalidTransition
    | .Resumed st => opResult (app.handleResumed st l .MemoryWarning) .Resumed
    | .Suspended st => opResult (app.handleSuspended st l .MemoryWarning) .Suspended
    | .Exited _ => .panic .invalidTransition)

/-- `ApplicationHandler::resumed` for `Adapter`: `Suspended` runs `resume`;
an already-`Resumed` state is passed through unchanged
(`State::Resumed(state) => State::Resumed(state)`). -/
def Adapter.resumed (app : Application WId WEv DId DEv UEv U R S E Err)
    (a : Adapter U R S E Err) (l : EventLoopCtl) :
    PanicOr Unit × Adapter U R S E Err × EventLoopCtl :=
  a.transition l (fun state l =>
    match state with
    | .Uninitialized _ => .panic .invalidTransition
    | .Resumed st => .ok (.ok (.Resumed st), l)
    | .Suspended st => opResult (app.resume st l) .Resumed
    | .Exited _ => .panic .invalidTransition)

/-- `ApplicationHandler::window_event` for `Adapter`: only legal while
`Resumed`; while `Suspended` (or any other phase) it aborts with
`invalid_transition`. -/
def Adapter.window_event (app : Application WId WEv DId DEv UEv U R S E Err)
    (a : Adapter U R S E Err) (l : EventLoopCtl) (window_id : WId) (event : WEv) :
    PanicOr Unit × Adapter U R S E Err × EventLoopCtl :=
  a.transition l (fun state l =>
    match state with
    | .Uninitialized _ => .panic .invalidTransition
    | .Resumed st =>
      opResult (app.handleResumed st l (.WindowEvent window_id event)) .Resumed
    | .Suspended _ => .panic .invalidTransition
    | .Exited _ => .panic .invalidTransition)

end Callbacks

/-- `run_app` from `src/lib.rs`: build the adapter around the initial
`Uninitialized` payload, hand it to the host loop (`event_loop.run_app(&mut
app)?`, modelled as an abstract function from the initial adapter to either
a loop-level error or the adapter as the loop left it), and only on loop
success read the cell out with `Adapter::exit`. -/
def run_app {U R S E Err LoopErr : Type}
    (runLoop : Adapter U R S E Err → Except LoopErr (Adapter U R S E Err))
    (app : U) : Except LoopErr (PanicOr (Except Err E)) :=
  match runLoop (Adapter.new app) with
  | .error e => .error e
  | .ok a => .ok (Adapter.exit a)

/-! Embedding of `examples/softbuffer.rs`.  `std::time::Instant` is
modelled as a `Nat` time stamp; `start_time.elapsed()` evaluated when the
clock reads `now` is `now - start_time`.  The winit window, softbuffer
context/surface/buffer and window-attribute types are abstract parameters,
and the fallible host calls the example makes on them are collected in the
`SBHost` capability record.  Host calls with no modelled state
(`request_redraw`, `pre_present_notify`) are omitted. -/

/-- `winit::dpi::PhysicalSize<u32>` restricted to the fields the example
reads. -/
structure PhysicalSize : Type where
  width : Nat
  height : Nat
deriving DecidableEq

/-- The physical keys the example discriminates (`KeyQ`, `Escape`, rest). -/
inductive SBKey : Type where
  | keyQ
  | escape
  | otherKey
deriving DecidableEq

/-- `winit::event::WindowEvent` restricted to the arms the example matches
on; `otherEvent` is the wildcard arm. -/
inductive SBWindowEvent : Type where
  | resized (size : PhysicalSize)
  | closeRequested
  | redrawRequested
  | keyboardInput (key : SBKey) (is_synthetic : Bool)
  | otherEvent
deriving DecidableEq

/-- The host capabilities `examples/softbuffer.rs` consumes:
`ActiveEventLoop::create_window`, `Window::inner_size`,
`softbuffer::Surface::new`, `Surface::resize`, `Surface::buffer_mut`,
`Buffer::present`, and the example's own `render` function (whose pixel
arithmetic uses `f32` and is abstracted). -/
structure SBHost (A C W Su Buf HErr : Type) : Type where
  create_window : A → Except HErr W
  inner_size : W → PhysicalSize
  surface_new : C → W → Except HErr Su
  surface_resize : Su → Nat → Nat → Except HErr Su
  buffer_mut : Su → Except HErr Buf
  present : Buf → Except HErr Unit
  render : Nat → Buf → PhysicalSize → Buf

/-- `struct Uninitialized` of the example: window attributes, softbuffer
context, start instant. -/
structure SBUninitialized (A C : Type) : Type where
  window_attributes : A
  context : C
  start_time : Nat
deriving DecidableEq

/-- `struct Suspended` of the example. -/
structure SBSuspended (A C : Type) : Type where
  uninitialized : SBUninitialized A C
deriving DecidableEq

/-- `struct Resumed` of the example. -/
structure SBResumed (A C Su : Type) : Type where
  suspended : SBSuspended A C
  surface : Su
  size : PhysicalSize
deriving DecidableEq

/-- `struct Exited` of the example. -/
structure SBExited (C : Type) : Type where
  context : C
deriving DecidableEq

section Softbuffer

variable {A C W Su Buf HErr WId : Type}

/-- `Uninitialized::exit`: keep only the context. -/
def SBUninitialized.exit (u : SBUninitialized A C) : SBExited C :=
  ⟨u.context⟩

/-- `Suspended::resume`: create a window from the preserved attributes,
read its size, build a surface over the preserved context, and carry the
whole `Suspended` value forward inside `Resumed`. -/
def SBSuspended.resume (host : SBHost A C W Su Buf HErr)
    (s : SBSuspended A C) : Except HErr (SBResumed A C Su) :=
  match host.create_window s.uninitialized.window_attributes with
  | .error e => .error e
  | .ok window =>
    match host.surface_new s.uninitialized.context window with
    | .error e => .error e
    | .ok surface => .ok ⟨s, surface, host.inner_size window⟩

/-- `Suspended::exit`. -/
def SBSuspended.exit (s : SBSuspended A C) : SBExited C :=
  s.uninitialized.exit

/-- `Resumed::suspend`: drop the surface, keep the preserved `Suspended`
value (`Ok(self.suspended)`). -/
def SBResumed.suspend (r : SBResumed A C Su) :
    Except HErr (SBSuspended A C) :=
  .ok r.suspended

/-- `Resumed::exit`. -/
def SBResumed.exit (r : SBResumed A C Su) : SBExited C :=
  r.suspended.exit

/-- `Resumed::handle_window_event` evaluated when the clock reads `now`.
Returns the updated `Resumed` value, the loop handle, and the list of
elapsed-time values passed to `render` (empty except on a redraw). -/
def SBResumed.handle_window_event (host : SBHost A C W Su Buf HErr)
    (now : Nat) (r : SBResumed A C Su) (l : EventLoopCtl)
    (_window_id : WId) (event : SBWindowEvent) :
    Except HErr (SBResumed A C Su × EventLoopCtl × List Nat) :=
  match event with
  | .resized size =>
    if size ≠ r.size then
      .ok ({ r with size := size }, l, [])
    else
      .ok (r, l, [])
  | .closeRequested => .ok (r, EventLoopCtl.exit l, [])
  | .redrawRequested =>
    let resized : Except HErr Su :=
      if r.size.width ≠ 0 ∧ r.size.height ≠ 0 then
        host.surface_resize r.surface r.size.width r.size.height
      else
        .ok r.surface
    match resized with
    | .error e => .error e
    | .ok surface =>
      let dt := now - r.suspended.uninitialized.start_time
      match host.buffer_mut surface with
      | .error e => .error e
      | .ok buffer =>
        let _rendered := host.render dt buffer r.size
        match host.buffer_mut surface with
        | .error e => .error e
        | .ok buffer2 =>
          match host.present buffer2 with
          | .error e => .error e
          | .ok _ => .ok ({ r with surface := surface }, l, [dt])
  | .keyboardInput key is_synthetic =>
    if is_synthetic = false then
      match key with
      | .keyQ => .ok (r, EventLoopCtl.exit l, [])
      | .escape => .ok (r, EventLoopCtl.exit l, [])
      | .otherKey => .ok (r, l, [])
    else
      .ok (r, l, [])
  | .otherEvent => .ok (r, l, [])

/-- The example's `enum Application` phase union. -/
inductive SBApplication (A C Su : Type) : Type where
  | Uninitialized (u : SBUninitialized A C)
  | Suspended (s : SBSuspended A C)
  | Resumed (r : SBResumed A C Su)
  | Exited (e : SBExited C)
deriving DecidableEq

/-- `Application::exit` of the example. -/
def SBApplication.exit : SBApplication A C Su → Except HErr (SBExited C)
  | .Uninitialized u => .ok u.exit
  | .Suspended s => .ok s.exit
  | .Resumed r => .ok r.exit
  | .Exited e => .ok e

/-- The start instant held by the current phase payload (`Exited` holds
none). -/
def SBApplication.startTime : SBApplication A C Su → Option Nat
  | .Uninitialized u => some u.start_time
  | .Suspended s => some s.uninitialized.start_time
  | .Resumed r => some r.suspended.uninitialized.start_time
  | .Exited _ => none

/-- The example's `resumed` handler: from `Uninitialized`, wrap into
`Suspended` and resume; from `Suspended`, resume; anything else aborts
(`invalid_transition`, a `panic!`). -/
def SBApplication.resumedCb (host : SBHost A C W Su Buf HErr) :
    SBApplication A C Su → PanicOr (Except HErr (SBApplication A C Su))
  | .Uninitialized u =>
    .ok ((SBSuspended.mk u).resume host |>.map .Resumed)
  | .Suspended s => .ok (s.resume host |>.map .Resumed)
  | _ => .panic .invalidTransition

/-- The example's `suspended` handler: only legal from `Resumed`. -/
def SBApplication.suspendedCb :
    SBApplication A C Su → PanicOr (Except HErr (SBApplication A C Su))
  | .Resumed r => .ok ((SBResumed.suspend r).map .Suspended)
  | _ => .panic .invalidTransition

/-- The example's `window_event` handler: only legal from `Resumed`. -/
def SBApplication.windowEventCb (host : SBHost A C W Su Buf HErr)
    (now : Nat) (l : EventLoopCtl) (window_id : WId) (event : SBWindowEvent) :
    SBApplication A C Su →
    PanicOr (Except HErr (SBApplication A C Su × EventLoopCtl × List Nat))
  | .Resumed r =>
    .ok ((r.handle_window_event host now l window_id event).map
      (fun out => (.Resumed out.1, out.2.1, out.2.2)))
  | _ => .panic .invalidTransition

/-- One host callback of the example run, as a trace step.  `now` is the
clock reading at the moment a window event is handled. -/
inductive SBCallback (WId : Type) : Type where
  | resumedStep
  | suspendedStep
  | windowEventStep (now : Nat) (window_id : WId) (event : SBWindowEvent)
  | aboutToWaitStep
deriving DecidableEq

/-- Apply one callback of the example application to the current phase,
threading the loop handle and collecting the elapsed-time values passed to
`render`.  `about_to_wait` only issues a redraw request (a host effect with
no modelled state) and returns the phase unchanged. -/
def SBApplication.step (host : SBHost A C W Su Buf HErr)
    (cb : SBCallback WId) (a : SBApplication A C Su) (l : EventLoopCtl) :
    PanicOr (Except HErr (SBApplication A C Su × EventLoopCtl × List Nat)) :=
  match cb with
  | .resumedStep =>
    match SBApplication.resumedCb host a with
    | .panic k => .panic k
    | .ok (.error e) => .ok (.error e)
    | .ok (.ok a2) => .ok (.ok (a2, l, []))
  | .suspendedStep =>
    match SBApplication.suspendedCb a with
    | .panic k => .panic k
    | .ok (.error e) => .ok (.error e)
    | .ok (.ok a2) => .ok (.ok (a2, l, []))
  | .windowEventStep now window_id event =>
    SBApplication.windowEventCb host now l window_id event a
  | .aboutToWaitStep => .ok (.ok (a, l, []))

/-- Run a list of callbacks left to right, stopping at the first abort or
application error, concatenating the per-step `render` traces. -/
def runSBSteps (host : SBHost A C W Su Buf HErr) :
    List (SBCallback WId) → SBApplication A C Su → EventLoopCtl →
    PanicOr (Except HErr (SBApplication A C Su × EventLoopCtl × List Nat))
  | [], a, l => .ok (.ok (a, l, []))
  | cb :: cbs, a, l =>
    match SBApplication.step host cb a l with
    | .panic k => .panic k
    | .ok (.error e) => .ok (.error e)
    | .ok (.ok (a2, l2, dts)) =>
      match runSBSteps host cbs a2 l2 with
      | .panic k => .panic k
      | .ok (.error e) => .ok (.error e)
      | .ok (.ok (a3, l3, dts2)) => .ok (.ok (a3, l3, dts ++ dts2))

end Softbuffer

/-! Claim theorems. -/

/-- Claim C4: a cell left empty by an aborted transformation (poisoned) makes
the next `transition` or `get` (the consuming read backing `into_inner`)
fail immediately with a fatal panic, leaving the cell empty; it never
returns a default, stale, or previous value. -/
theorem takeable_poisoned_faults :
    ∀ (T : Type) (f : T → PanicOr T),
      Takeable.transition (⟨none⟩ : Takeable T) f
        = (.panic .unreachableEmpty, ⟨none⟩)
      ∧ Takeable.get (⟨none⟩ : Takeable T) = .panic .unreachableEmpty := by
  intro T f
  exact ⟨rfl, rfl⟩

/-- Claim C5: the cell occupancy invariant: `Takeable.new` stores exactly
the given value; a transition whose transformation returns normally leaves
the cell holding exactly the transformation result; a transformation that
aborts finds the previous value already removed, so the cell is left
empty. -/
theorem takeable_occupancy :
    ∀ (T : Type) (v : T),
      (Takeable.new v).val = some v
      ∧ (∀ (f : T → PanicOr T) (t : T), f v = .ok t →
          Takeable.transition (Takeable.new v) f = (.ok (), ⟨some t⟩))
      ∧ (∀ (f : T → PanicOr T) (k : PanicKind), f v = .panic k →
          Takeable.transition (Takeable.new v) f = (.panic k, ⟨none⟩)) := by
  intro T v
  refine ⟨rfl, ?_, ?_⟩ <;> intro f x h <;>
    simp [Takeable.transition, Takeable.transitionWith, Takeable.new, h]

/-- Witness for C5 at concrete inputs. -/
theorem takeable_occupancy_witness :
    (Takeable.new 3).val = some 3
    ∧ Takeable.transition (Takeable.new 3) (fun v => .ok (v + 1))
        = (.ok (), ⟨some 4⟩)
    ∧ Takeable.transition (Takeable.new 3)
        (fun _ => .panic .unreachableEmpty)
        = (.panic .unreachableEmpty, ⟨none⟩) :=
  ⟨(takeable_occupancy Nat 3).1,
   (takeable_occupancy Nat 3).2.1 (fun v => .ok (v + 1)) 4 rfl,
   (takeable_occupancy Nat 3).2.2 (fun _ => .panic .unreachableEmpty)
     .unreachableEmpty rfl⟩

/-- Claim C1: once a state-machine operation returns an application error
during an adapter transition, the adapter requests host-loop exit and stores
the error in the cell; every later adapter transition returns the stored
error unchanged without consulting its closure (so no further state-machine
operation runs); and the shutdown read returns exactly that first error. -/
theorem adapter_first_error_final :
    ∀ (U R S E Err : Type) (st : State U R S E) (e : Err) (l l2 : EventLoopCtl)
      (f : State U R S E → EventLoopCtl →
        PanicOr (Except Err (State U R S E) × EventLoopCtl)),
      (f st l = .ok (.error e, l2) →
        Adapter.transition (⟨Takeable.new (.ok st)⟩ : Adapter U R S E Err) l f
          = (.ok (), ⟨Takeable.new (.error e)⟩, ⟨true⟩))
      ∧ (∀ g, Adapter.transition
            (⟨Takeable.new (.error e)⟩ : Adapter U R S E Err) l g
          = (.ok (), ⟨Takeable.new (.error e)⟩, l))
      ∧ Adapter.exit (⟨Takeable.new (.error e)⟩ : Adapter U R S E Err)
          = .ok (.error e) := by
  intro U R S E Err st e l l2 f
  refine ⟨fun h => ?_, fun g => rfl, rfl⟩
  simp [Adapter.transition, Takeable.transitionWith, Takeable.new, h,
    EventLoopCtl.exit]

/-- Witness for C1 at concrete inputs. -/
theorem adapter_first_error_final_witness :
    Adapter.transition
        (⟨Takeable.new (.ok (.Uninitialized ()))⟩ : Adapter Unit Unit Unit Unit Nat)
        ⟨false⟩ (fun _ l => .ok (.error 7, l))
      = (.ok (), ⟨Takeable.new (.error 7)⟩, ⟨true⟩)
    ∧ Adapter.transition
        (⟨Takeable.new (.error 7)⟩ : Adapter Unit Unit Unit Unit Nat)
        ⟨false⟩ (fun _ l => .ok (.error 9, l))
      = (.ok (), ⟨Takeable.new (.error 7)⟩, ⟨false⟩)
    ∧ Adapter.exit (⟨Takeable.new (.error 7)⟩ : Adapter Unit Unit Unit Unit Nat)
      = .ok (.error 7) :=
  have h := adapter_first_error_final Unit Unit Unit Unit Nat
    (.Uninitialized ()) 7 ⟨false⟩ ⟨false⟩ (fun _ l => .ok (.error 7, l))
  ⟨h.1 rfl, h.2.1 (fun _ l => .ok (.error 9, l)), h.2.2⟩

/-- A trivial concrete `Application` instance over `Unit` payloads, used to
evaluate the adapter on concrete inputs. -/
def unitApp : Application Unit Unit Unit Unit Unit Unit Unit Unit Unit Unit where
  init := fun _ l => (.ok (), l)
  handleResumed := fun s l _ => (.ok s, l)
  suspend := fun _ l => (.ok (), l)
  exitResumed := fun _ l => (.ok (), l)
  handleSuspended := fun s l _ => (.ok s, l)
  resume := fun _ l => (.ok (), l)
  exitSuspended := fun _ l => (.ok (), l)

/-- Counterexample for C2: a loop suspend signal while already `Suspended`
and a loop resume signal while already `Resumed` do not abort; they return
normally with the phase, the cell and the loop handle unchanged. -/
theorem suspend_resume_noop_counterexample :
    Adapter.suspended unitApp
        (⟨Takeable.new (.ok (.Suspended ()))⟩ : Adapter Unit Unit Unit Unit Unit)
        ⟨false⟩
      = (.ok (), ⟨Takeable.new (.ok (.Suspended ()))⟩, ⟨false⟩)
    ∧ Adapter.resumed unitApp
        (⟨Takeable.new (.ok (.Resumed ()))⟩ : Adapter Unit Unit Unit Unit Unit)
        ⟨false⟩
      = (.ok (), ⟨Takeable.new (.ok (.Resumed ()))⟩, ⟨false⟩) :=
  ⟨rfl, rfl⟩

/-- Claim C2 (amended): every trigger arriving in a phase for which the
transition table defines no row raises an invalid-transition fault that
aborts, with exactly two exceptions: a loop suspend signal while already
`Suspended` and a loop resume signal while already `Resumed` are silent
no-ops that leave the phase, the cell and the loop handle unchanged. -/
theorem undefined_trigger_faults :
    ∀ (WId WEv DId DEv UEv U R S E Err : Type)
      (app : Application WId WEv DId DEv UEv U R S E Err) (l : EventLoopCtl),
      (∀ s : S, Adapter.suspended app ⟨Takeable.new (.ok (.Suspended s))⟩ l
          = (.ok (), ⟨Takeable.new (.ok (.Suspended s))⟩, l))
      ∧ (∀ r : R, Adapter.resumed app ⟨Takeable.new (.ok (.Resumed r))⟩ l
          = (.ok (), ⟨Takeable.new (.ok (.Resumed r))⟩, l))
      ∧ (∀ u : U,
          Adapter.new_events app ⟨Takeable.new (.ok (.Uninitialized u))⟩ l
              .poll
            = (.panic .invalidTransition, ⟨⟨none⟩⟩, l)
          ∧ Adapter.new_events app ⟨Takeable.new (.ok (.Uninitialized u))⟩ l
              .resumeTimeReached
            = (.panic .invalidTransition, ⟨⟨none⟩⟩, l)
          ∧ Adapter.new_events app ⟨Takeable.new (.ok (.Uninitialized u))⟩ l
              .waitCancelled
            = (.panic .invalidTransition, ⟨⟨none⟩⟩, l)
          ∧ (∀ ev : UEv,
              Adapter.user_event app ⟨Takeable.new (.ok (.Uninitialized u))⟩ l ev
                = (.panic .invalidTransition, ⟨⟨none⟩⟩, l))
          ∧ (∀ (d : DId) (ev : DEv),
              Adapter.device_event app ⟨Takeable.new (.ok (.Uninitialized u))⟩
                  l d ev
                = (.panic .invalidTransition, ⟨⟨none⟩⟩, l))
          ∧ Adapter.about_to_wait app ⟨Takeable.new (.ok (.Uninitialized u))⟩ l
            = (.panic .invalidTransition, ⟨⟨none⟩⟩, l)
          ∧ Adapter.suspended app ⟨Takeable.new (.ok (.Uninitialized u))⟩ l
            = (.panic .invalidTransition, ⟨⟨none⟩⟩, l)
          ∧ Adapter.exiting app ⟨Takeable.new (.ok (.Uninitialized u))⟩ l
            = (.panic .invalidTransition, ⟨⟨none⟩⟩, l)
          ∧ Adapter.memory_warning app ⟨Takeable.new (.ok (.Uninitialized u))⟩ l
            = (.panic .invalidTransition, ⟨⟨none⟩⟩, l)
          ∧ Adapter.resumed app ⟨Takeable.new (.ok (.Uninitialized u))⟩ l
            = (.panic .invalidTransition, ⟨⟨none⟩⟩, l)
          ∧ (∀ (wid : WId) (wev : WEv),
              Adapter.window_event app ⟨Takeable.new (.ok (.Uninitialized u))⟩
                  l wid wev
                = (.panic .invalidTransition, ⟨⟨none⟩⟩, l)))
      ∧ (∀ (s : S) (wid : WId) (wev : WEv),
          Adapter.window_event app ⟨Takeable.new (.ok (.Suspended s))⟩ l wid wev
            = (.panic .invalidTransition, ⟨⟨none⟩⟩, l))
      ∧ (∀ x : E,
          (∀ cause, Adapter.new_events app ⟨Takeable.new (.ok (.Exited x))⟩ l
              cause = (.panic .invalidTransition, ⟨⟨none⟩⟩, l))
          ∧ (∀ ev : UEv,
              Adapter.user_event app ⟨Takeable.new (.ok (.Exited x))⟩ l ev
                = (.panic .invalidTransition, ⟨⟨none⟩⟩, l))
          ∧ (∀ (d : DId) (ev : DEv),
              Adapter.device_event app ⟨Takeable.new (.ok (.Exited x))⟩ l d ev
                = (.panic .invalidTransition, ⟨⟨none⟩⟩, l))
          ∧ Adapter.about_to_wait app ⟨Takeable.new (.ok (.Exited x))⟩ l
            = (.panic .invalidTransition, ⟨⟨none⟩⟩, l)
          ∧ Adapter.suspended app ⟨Takeable.new (.ok (.Exited x))⟩ l
            = (.panic .invalidTransition, ⟨⟨none⟩⟩, l)
          ∧ Adapter.exiting app ⟨Takeable.new (.ok (.Exited x))⟩ l
            = (.panic .invalidTransition, ⟨⟨none⟩⟩, l)
          ∧ Adapter.memory_warning app ⟨Takeable.new (.ok (.Exited x))⟩ l
            = (.panic .invalidTransition, ⟨⟨none⟩⟩, l)
          ∧ Adapter.resumed app ⟨Takeable.new (.ok (.Exited x))⟩ l
            = (.panic .invalidTransition, ⟨⟨none⟩⟩, l)
          ∧ (∀ (wid : WId) (wev : WEv),
              Adapter.window_event app ⟨Takeable.new (.ok (.Exited x))⟩ l wid
                  wev
                = (.panic .invalidTransition, ⟨⟨none⟩⟩, l))) := by
  intro WId WEv DId DEv UEv U R S E Err app l
  exact ⟨fun s => rfl, fun r => rfl,
    fun u => ⟨rfl, rfl, rfl, fun ev => rfl, fun d ev => rfl, rfl, rfl, rfl,
      rfl, rfl, fun wid wev => rfl⟩,
    fun s wid wev => rfl,
    fun x => ⟨fun cause => rfl, fun ev => rfl, fun d ev => rfl, rfl, rfl,
      rfl, rfl, rfl, fun wid wev => rfl⟩⟩

/-- Counterexample for C3: with an application error already stored in the
cell, a further host callback returns normally (no unreachable or
invalid-transition signal) and leaves the stored error and the loop handle
unchanged. -/
theorem error_no_signal_counterexample :
    (Adapter.new_events unitApp
        (⟨Takeable.new (.error ())⟩ : Adapter Unit Unit Unit Unit Unit)
        ⟨false⟩ .poll).1
      = .ok ()
    ∧ Adapter.new_events unitApp
        (⟨Takeable.new (.error ())⟩ : Adapter Unit Unit Unit Unit Unit)
        ⟨false⟩ .poll
      = (.ok (), ⟨Takeable.new (.error ())⟩, ⟨false⟩) :=
  ⟨rfl, rfl⟩

/-- Claim C3 (amended): after a transition has returned an application error
(so the cell holds the error and loop exit was requested), any host callback
that still arrives is silently absorbed: the stored-error short circuit
returns normally, raises no unreachable or invalid-transition signal,
invokes no state-machine operation, and leaves the stored error and the
loop handle unchanged. -/
theorem error_state_callbacks_absorbed :
    ∀ (WId WEv DId DEv UEv U R S E Err : Type)
      (app : Application WId WEv DId DEv UEv U R S E Err) (e : Err)
      (l : EventLoopCtl),
      (∀ cause, Adapter.new_events app ⟨Takeable.new (.error e)⟩ l cause
          = (.ok (), ⟨Takeable.new (.error e)⟩, l))
      ∧ (∀ ev : UEv, Adapter.user_event app ⟨Takeable.new (.error e)⟩ l ev
          = (.ok (), ⟨Takeable.new (.error e)⟩, l))
      ∧ (∀ (d : DId) (ev : DEv),
          Adapter.device_event app ⟨Takeable.new (.error e)⟩ l d ev
            = (.ok (), ⟨Takeable.new (.error e)⟩, l))
      ∧ Adapter.about_to_wait app ⟨Takeable.new (.error e)⟩ l
        = (.ok (), ⟨Takeable.new (.error e)⟩, l)
      ∧ Adapter.suspended app ⟨Takeable.new (.error e)⟩ l
        = (.ok (), ⟨Takeable.new (.error e)⟩, l)
      ∧ Adapter.exiting app ⟨Takeable.new (.error e)⟩ l
        = (.ok (), ⟨Takeable.new (.error e)⟩, l)
      ∧ Adapter.memory_warning app ⟨Takeable.new (.error e)⟩ l
        = (.ok (), ⟨Takeable.new (.error e)⟩, l)
      ∧ Adapter.resumed app ⟨Takeable.new (.error e)⟩ l
        = (.ok (), ⟨Takeable.new (.error e)⟩, l)
      ∧ (∀ (wid : WId) (wev : WEv),
          Adapter.window_event app ⟨Takeable.new (.error e)⟩ l wid wev
            = (.ok (), ⟨Takeable.new (.error e)⟩, l)) := by
  intro WId WEv DId DEv UEv U R S E Err app e l
  and_intros <;> intros <;> rfl

/-- Claim C6: a window-event callback delivered while the phase is
`Suspended` aborts with the invalid-transition fault (never a silent no-op),
and the `Suspended`-phase event union has no window-event variant: every
`EventSuspended` value is a new-events, device, user, about-to-wait or
memory-warning event. -/
theorem suspended_window_event_fault :
    (∀ (WId WEv DId DEv UEv U R S E Err : Type)
      (app : Application WId WEv DId DEv UEv U R S E Err) (s : S)
      (l : EventLoopCtl) (wid : WId) (wev : WEv),
      Adapter.window_event app ⟨Takeable.new (.ok (.Suspended s))⟩ l wid wev
        = (.panic .invalidTransition, ⟨⟨none⟩⟩, l))
    ∧ (∀ (DId DEv UEv : Type) (e : EventSuspended DId DEv UEv),
        (∃ c, e = .NewEvents c)
        ∨ (∃ d ev, e = .DeviceEvent d ev)
        ∨ (∃ u, e = .UserEvent u)
        ∨ e = .AboutToWait
        ∨ e = .MemoryWarning) := by
  constructor
  · intro WId WEv DId DEv UEv U R S E Err app s l wid wev
    rfl
  · intro DId DEv UEv e
    cases e with
    | NewEvents c => exact Or.inl ⟨c, rfl⟩
    | DeviceEvent d ev => exact Or.inr (Or.inl ⟨d, ev, rfl⟩)
    | UserEvent u => exact Or.inr (Or.inr (Or.inl ⟨u, rfl⟩))
    | AboutToWait => exact Or.inr (Or.inr (Or.inr (Or.inl rfl)))
    | MemoryWarning => exact Or.inr (Or.inr (Or.inr (Or.inr rfl)))

/-- Claim C7: `Exited` is terminal: every host callback delivered while the
phase is `Exited` aborts with the invalid-transition fault, so no transition
ever produces any phase from `Exited`. -/
theorem exited_terminal :
    ∀ (WId WEv DId DEv UEv U R S E Err : Type)
      (app : Application WId WEv DId DEv UEv U R S E Err) (x : E)
      (l : EventLoopCtl),
      (∀ cause, Adapter.new_events app ⟨Takeable.new (.ok (.Exited x))⟩ l cause
          = (.panic .invalidTransition, ⟨⟨none⟩⟩, l))
      ∧ (∀ ev : UEv, Adapter.user_event app ⟨Takeable.new (.ok (.Exited x))⟩ l ev
          = (.panic .invalidTransition, ⟨⟨none⟩⟩, l))
      ∧ (∀ (d : DId) (ev : DEv),
          Adapter.device_event app ⟨Takeable.new (.ok (.Exited x))⟩ l d ev
            = (.panic .invalidTransition, ⟨⟨none⟩⟩, l))
      ∧ Adapter.about_to_wait app ⟨Takeable.new (.ok (.Exited x))⟩ l
        = (.panic .invalidTransition, ⟨⟨none⟩⟩, l)
      ∧ Adapter.suspended app ⟨Takeable.new (.ok (.Exited x))⟩ l
        = (.panic .invalidTransition, ⟨⟨none⟩⟩, l)
      ∧ Adapter.exiting app ⟨Takeable.new (.ok (.Exited x))⟩ l
        = (.panic .invalidTransition, ⟨⟨none⟩⟩, l)
      ∧ Adapter.memory_warning app ⟨Takeable.new (.ok (.Exited x))⟩ l
        = (.panic .invalidTransition, ⟨⟨none⟩⟩, l)
      ∧ Adapter.resumed app ⟨Takeable.new (.ok (.Exited x))⟩ l
        = (.panic .invalidTransition, ⟨⟨none⟩⟩, l)
      ∧ (∀ (wid : WId) (wev : WEv),
          Adapter.window_event app ⟨Takeable.new (.ok (.Exited x))⟩ l wid wev
            = (.panic .invalidTransition, ⟨⟨none⟩⟩, l)) := by
  intro WId WEv DId DEv UEv U R S E Err app x l
  exact ⟨fun cause => rfl, fun ev => rfl, fun d ev => rfl, rfl, rfl, rfl,
    rfl, rfl, fun wid wev => rfl⟩

/-- Claim C8: the shutdown read of the cell returns the `Exited` payload
exactly when the final phase is `Exited`; on any other phase it aborts with
the invalid-transition fault instead of fabricating a terminal payload. -/
theorem adapter_exit_only_exited :
    ∀ (U R S E Err : Type),
      (∀ x : E, Adapter.exit
          (⟨Takeable.new (.ok (.Exited x))⟩ : Adapter U R S E Err)
          = .ok (.ok x))
      ∧ (∀ u : U, Adapter.exit
          (⟨Takeable.new (.ok (.Uninitialized u))⟩ : Adapter U R S E Err)
          = .panic .invalidTransition)
      ∧ (∀ r : R, Adapter.exit
          (⟨Takeable.new (.ok (.Resumed r))⟩ : Adapter U R S E Err)
          = .panic .invalidTransition)
      ∧ (∀ s : S, Adapter.exit
          (⟨Takeable.new (.ok (.Suspended s))⟩ : Adapter U R S E Err)
          = .panic .invalidTransition) := by
  intro U R S E Err
  exact ⟨fun x => rfl, fun u => rfl, fun r => rfl, fun s => rfl⟩

/-- Claim C10: if the host loop run itself returns a loop-level error, the
run entry operation propagates exactly that error and never reads the cell:
the caller receives neither an `Exited` payload nor a stored application
error. -/
theorem run_app_loop_error_propagates :
    ∀ (U R S E Err LoopErr : Type)
      (runLoop : Adapter U R S E Err → Except LoopErr (Adapter U R S E Err))
      (app : U) (e : LoopErr),
      runLoop (Adapter.new app) = .error e →
        run_app runLoop app = .error e
        ∧ ∀ x : PanicOr (Except Err E), run_app runLoop app ≠ .ok x := by
  intro U R S E Err LoopErr runLoop app e h
  refine ⟨?_, ?_⟩
  · simp [run_app, h]
  · intro x hx
    rw [run_app, h] at hx
    exact Except.noConfusion hx

/-- Witness for C10: a host loop that records an application error through a
callback and then fails with loop error 7; the entry operation returns the
loop error. -/
theorem run_app_loop_error_propagates_witness :
    run_app
        (fun a =>
          match Adapter.new_events unitApp a ⟨false⟩ .init with
          | _ => (.error 7 :
              Except Nat (Adapter Unit Unit Unit Unit Unit)))
        ()
      = .error 7 :=
  (run_app_loop_error_propagates Unit Unit Unit Unit Unit Nat
    (fun a =>
      match Adapter.new_events unitApp a ⟨false⟩ .init with
      | _ => .error 7)
    () 7 rfl).1

/-- A successful `Suspended::resume` carries the whole previous `Suspended`
value (hence its start instant) into the new `Resumed` value. -/
theorem SBSuspended.resume_suspended_eq :
    ∀ (A C W Su Buf HErr : Type) (host : SBHost A C W Su Buf HErr)
      (s : SBSuspended A C) (r : SBResumed A C Su),
      SBSuspended.resume host s = .ok r → r.suspended = s := by
  intro A C W Su Buf HErr host s r h
  unfold SBSuspended.resume at h
  split at h
  · exact Except.noConfusion h
  · split at h
    · exact Except.noConfusion h
    · injection h with h
      rw [← h]

/-- A successful `Resumed::handle_window_event` leaves the carried
`Suspended` value (hence the start instant) unchanged. -/
theorem SBResumed.hwe_suspended_eq :
    ∀ (A C W Su Buf HErr WId : Type) (host : SBHost A C W Su Buf HErr)
      (now : Nat) (r : SBResumed A C Su) (l : EventLoopCtl) (wid : WId)
      (ev : SBWindowEvent) (r2 : SBResumed A C Su) (l2 : EventLoopCtl)
      (dts : List Nat),
      SBResumed.handle_window_event host now r l wid ev = .ok (r2, l2, dts) →
        r2.suspended = r.suspended := by
  intro A C W Su Buf HErr WId host now r l wid ev r2 l2 dts h
  cases ev <;>
    (simp only [SBResumed.handle_window_event] at h
     repeat' split at h) <;>
    first
      | exact Except.noConfusion h
      | (simp only [Except.ok.injEq, Prod.mk.injEq] at h
         obtain ⟨h1, h2, h3⟩ := h
         subst h1
         rfl)

/-- On a successful redraw, the single elapsed-time value handed to
`render` is the current clock reading minus the stored start instant. -/
theorem SBResumed.hwe_redraw_dts :
    ∀ (A C W Su Buf HErr WId : Type) (host : SBHost A C W Su Buf HErr)
      (now : Nat) (r : SBResumed A C Su) (l : EventLoopCtl) (wid : WId)
      (r2 : SBResumed A C Su) (l2 : EventLoopCtl) (dts : List Nat),
      SBResumed.handle_window_event host now r l wid .redrawRequested
          = .ok (r2, l2, dts) →
        dts = [now - r.suspended.uninitialized.start_time] := by
  intro A C W Su Buf HErr WId host now r l wid r2 l2 dts h
  simp only [SBResumed.handle_window_event] at h
  repeat' split at h
  all_goals first
    | exact Except.noConfusion h
    | (simp only [Except.ok.injEq, Prod.mk.injEq] at h
       obtain ⟨h1, h2, h3⟩ := h
       exact h3.symm)

/-- One successful callback step of the softbuffer example preserves the
stored start instant. -/
theorem SBApplication.step_startTime :
    ∀ (A C W Su Buf HErr WId : Type) (host : SBHost A C W Su Buf HErr)
      (cb : SBCallback WId) (a : SBApplication A C Su) (l : EventLoopCtl)
      (t : Nat) (a2 : SBApplication A C Su) (l2 : EventLoopCtl)
      (dts : List Nat),
      a.startTime = some t →
      SBApplication.step host cb a l = .ok (.ok (a2, l2, dts)) →
      a2.startTime = some t := by
  intro A C W Su Buf HErr WId host cb a l t a2 l2 dts ht h
  cases cb with
  | resumedStep =>
    cases a with
    | Uninitialized u =>
      cases hr : SBSuspended.resume host (SBSuspended.mk u) with
      | error e =>
        simp [SBApplication.step, SBApplication.resumedCb, hr, Except.map] at h
      | ok r =>
        simp only [SBApplication.step, SBApplication.resumedCb, hr,
          Except.map, PanicOr.ok.injEq, Except.ok.injEq, Prod.mk.injEq] at h
        obtain ⟨h1, h2, h3⟩ := h
        subst h1
        have hs := SBSuspended.resume_suspended_eq A C W Su Buf HErr host
          (SBSuspended.mk u) r hr
        simp only [SBApplication.startTime] at ht ⊢
        rw [hs]
        exact ht
    | Suspended s =>
      cases hr : SBSuspended.resume host s with
      | error e =>
        simp [SBApplication.step, SBApplication.resumedCb, hr, Except.map] at h
      | ok r =>
        simp only [SBApplication.step, SBApplication.resumedCb, hr,
          Except.map, PanicOr.ok.injEq, Except.ok.injEq, Prod.mk.injEq] at h
        obtain ⟨h1, h2, h3⟩ := h
        subst h1
        have hs := SBSuspended.resume_suspended_eq A C W Su Buf HErr host s r hr
        simp only [SBApplication.startTime] at ht ⊢
        rw [hs]
        exact ht
    | Resumed r =>
      simp [SBApplication.step, SBApplication.resumedCb] at h
    | Exited e =>
      simp [SBApplication.step, SBApplication.resumedCb] at h
  | suspendedStep =>
    cases a with
    | Uninitialized u =>
      simp [SBApplication.step, SBApplication.suspendedCb] at h
    | Suspended s =>
      simp [SBApplication.step, SBApplication.suspendedCb] at h
    | Resumed r =>
      simp only [SBApplication.step, SBApplication.suspendedCb,
        SBResumed.suspend, Except.map, PanicOr.ok.injEq, Except.ok.injEq,
        Prod.mk.injEq] at h
      obtain ⟨h1, h2, h3⟩ := h
      subst h1
      simp only [SBApplication.startTime] at ht ⊢
      exact ht
    | Exited e =>
      simp [SBApplication.step, SBApplication.suspendedCb] at h
  | windowEventStep now wid ev =>
    cases a with
    | Uninitialized u =>
      simp [SBApplication.step, SBApplication.windowEventCb] at h
    | Suspended s =>
      simp [SBApplication.step, SBApplication.windowEventCb] at h
    | Resumed r =>
      cases hw : SBResumed.handle_window_event host now r l wid ev with
      | error e =>
        simp [SBApplication.step, SBApplication.windowEventCb, hw,
          Except.map] at h
      | ok out =>
        obtain ⟨r2, l2b, dts2⟩ := out
        simp only [SBApplication.step, SBApplication.windowEventCb, hw,
          Except.map, PanicOr.ok.injEq, Except.ok.injEq, Prod.mk.injEq] at h
        obtain ⟨h1, h2, h3⟩ := h
        subst h1
        have hs := SBResumed.hwe_suspended_eq A C W Su Buf HErr WId host now
          r l wid ev r2 l2b dts2 hw
        simp only [SBApplication.startTime] at ht ⊢
        rw [hs]
        exact ht
    | Exited e =>
      simp [SBApplication.step, SBApplication.windowEventCb] at h
  | aboutToWaitStep =>
    simp only [SBApplication.step, PanicOr.ok.injEq, Except.ok.injEq,
      Prod.mk.injEq] at h
    obtain ⟨h1, h2, h3⟩ := h
    subst h1
    exact ht

/-- Any successful sequence of callback steps of the softbuffer example
preserves the stored start instant. -/
theorem runSBSteps_startTime :
    ∀ (A C W Su Buf HErr WId : Type) (host : SBHost A C W Su Buf HErr)
      (cbs : List (SBCallback WId)) (a : SBApplication A C Su)
      (l : EventLoopCtl) (t : Nat) (a2 : SBApplication A C Su)
      (l2 : EventLoopCtl) (dts : List Nat),
      a.startTime = some t →
      runSBSteps host cbs a l = .ok (.ok (a2, l2, dts)) →
      a2.startTime = some t := by
  intro A C W Su Buf HErr WId host cbs
  induction cbs with
  | nil =>
    intro a l t a2 l2 dts ht h
    simp only [runSBSteps, PanicOr.ok.injEq, Except.ok.injEq,
      Prod.mk.injEq] at h
    obtain ⟨h1, h2, h3⟩ := h
    subst h1
    exact ht
  | cons cb cbs ih =>
    intro a l t a2 l2 dts ht h
    simp only [runSBSteps] at h
    split at h
    · exact PanicOr.noConfusion h
    · exact absurd h (by simp)
    · rename_i a1 l1 dts1 heq
      split at h
      · exact PanicOr.noConfusion h
      · exact absurd h (by simp)
      · rename_i a3 l3 dts3 heq2
        simp only [PanicOr.ok.injEq, Except.ok.injEq, Prod.mk.injEq] at h
        obtain ⟨h1, h2, h3⟩ := h
        subst h1
        have ht1 := SBApplication.step_startTime A C W Su Buf HErr WId
          host cb a l t a1 l1 dts1 ht heq
        exact ih a1 l1 t a3 l3 dts3 ht1 heq2

/-- Claim C9: the start instant recorded in the `Uninitialized` payload is
carried forward unchanged through every successful callback step of the
softbuffer example (initialize, suspend, resume, window events); and after
any such sequence, a redraw handled when the clock reads `now` passes to
`render` exactly the elapsed time `now` minus the original start instant,
independent of how many suspend/resume cycles occurred. -/
theorem sb_start_time_carried :
    (∀ (A C W Su Buf HErr WId : Type) (host : SBHost A C W Su Buf HErr)
       (u : SBUninitialized A C) (cbs : List (SBCallback WId))
       (l l2 : EventLoopCtl) (a2 : SBApplication A C Su) (dts : List Nat),
       runSBSteps host cbs (.Uninitialized u) l = .ok (.ok (a2, l2, dts)) →
         a2.startTime = some u.start_time)
    ∧ (∀ (A C W Su Buf HErr WId : Type) (host : SBHost A C W Su Buf HErr)
        (u : SBUninitialized A C) (cbs : List (SBCallback WId))
        (l l2 l3 : EventLoopCtl) (r : SBResumed A C Su) (dts : List Nat)
        (now : Nat) (wid : WId) (a3 : SBApplication A C Su)
        (dts2 : List Nat),
        runSBSteps host cbs (.Uninitialized u) l
          = .ok (.ok (.Resumed r, l2, dts)) →
        SBApplication.step host (.windowEventStep now wid .redrawRequested)
            (.Resumed r) l2
          = .ok (.ok (a3, l3, dts2)) →
        dts2 = [now - u.start_time]) := by
  constructor
  · intro A C W Su Buf HErr WId host u cbs l l2 a2 dts h
    exact runSBSteps_startTime A C W Su Buf HErr WId host cbs
      (.Uninitialized u) l u.start_time a2 l2 dts rfl h
  · intro A C W Su Buf HErr WId host u cbs l l2 l3 r dts now wid a3 dts2 h1 h2
    have hst := runSBSteps_startTime A C W Su Buf HErr WId host cbs
      (.Uninitialized u) l u.start_time (.Resumed r) l2 dts rfl h1
    simp only [SBApplication.startTime, Option.some.injEq] at hst
    cases hw : SBResumed.handle_window_event host now r l2 wid
        .redrawRequested with
    | error e =>
      rw [SBApplication.step, SBApplication.windowEventCb, hw] at h2
      simp [Except.map] at h2
    | ok out =>
      obtain ⟨r2, l2b, dtsb⟩ := out
      rw [SBApplication.step, SBApplication.windowEventCb, hw] at h2
      simp only [Except.map, PanicOr.ok.injEq, Except.ok.injEq,
        Prod.mk.injEq] at h2
      obtain ⟨h3, h4, h5⟩ := h2
      have hd := SBResumed.hwe_redraw_dts A C W Su Buf HErr WId host now r
        l2 wid r2 l2b dtsb hw
      rw [← h5, hd, hst]

/-- A trivial concrete host capability record over `Unit` resources. -/
def host0 : SBHost Unit Unit Unit Unit Unit Unit where
  create_window := fun _ => .ok ()
  inner_size := fun _ => ⟨1, 1⟩
  surface_new := fun _ _ => .ok ()
  surface_resize := fun _ _ _ => .ok ()
  buffer_mut := fun _ => .ok ()
  present := fun _ => .ok ()
  render := fun _ _ _ => ()

/-- Witness for C9: a run that initializes, suspends and resumes, starting
at instant 5, still holds start instant 5; a redraw at instant 9 after
initialization renders elapsed time 4 = 9 - 5. -/
theorem sb_start_time_carried_witness :
    SBApplication.startTime
        (SBApplication.Resumed
          (⟨⟨⟨(), (), 5⟩⟩, (), ⟨1, 1⟩⟩ : SBResumed Unit Unit Unit))
      = some 5
    ∧ ([4] : List Nat) = [9 - 5] := by
  constructor
  · exact sb_start_time_carried.1 Unit Unit Unit Unit Unit Unit Unit host0
      ⟨(), (), 5⟩ [.resumedStep, .suspendedStep, .resumedStep] ⟨false⟩
      ⟨false⟩ (SBApplication.Resumed ⟨⟨⟨(), (), 5⟩⟩, (), ⟨1, 1⟩⟩) [] rfl
  · exact sb_start_time_carried.2 Unit Unit Unit Unit Unit Unit Unit host0
      ⟨(), (), 5⟩ [.resumedStep] ⟨false⟩ ⟨false⟩ ⟨false⟩
      ⟨⟨⟨(), (), 5⟩⟩, (), ⟨1, 1⟩⟩ [] 9 ()
      (SBApplication.Resumed ⟨⟨⟨(), (), 5⟩⟩, (), ⟨1, 1⟩⟩) [4] rfl rfl

end WinitExt
